import Mathlib

/-!
Verification of the `PackageFinder` package-resolution core of
`BuildUtils/FindPackages.py` (class `PackageFinder` and its per-package
subclasses `Graphite2Finder` and `FreetypeFinder`).

Shallow embedding conventions:
* An SCons `Environment` is modelled by `Env`: the construction variables the
  code touches (`CPPPATH`, `LIBPATH`, `LIB`, `LIBS`) plus the library
  naming variables it reads (`SHLIBPREFIX`, `LIBPREFIX`, `SHLIBSUFFIX`,
  `LIBSUFFIX`, stored in the fields `shlibPre`, `libPre`, `shlibSuf`,
  `libSuf`).  `env.Clone()` is value copying; `env.Append(X=[v])` is list
  append on the corresponding field.
* `os.walk(root, topdown=False)` is modelled by an oracle
  `FileSystem.walk : String -> List (String × List String)` giving, in walk
  order, each visited directory together with its file list.  `os.walk`
  silently suppresses directory-read errors (its default `onerror=None`),
  so an unreadable or missing directory is a root whose walk is `[]`.
* `open(path).read()` is modelled by
  `FileSystem.readFile : String -> Except PyExc String`; a raised `IOError`
  is `Except.error`.  Python exceptions propagating out of a function are
  `Except.error` results throughout.
* `conf.TryLink(...)` (an external compiler invocation) is an oracle
  `tryLink : Env -> Bool`.  `pkg-config` interaction is the oracle record
  `PkgConfig`.  `ColorPrinter` output is ignored (pure logging collaborator).
* The `self.timedout['timedout']` flag is read by the search loops; during a
  single-threaded run (and for the whole run once set before it) it is a
  fixed boolean, modelled by the parameter `td`.
* Python string operations are re-implemented over `List Char`
  (`pyStartsWith` = `str.startswith`, `pyEndsWith` = `str.endswith`,
  `pyIn needle hay` = `needle in hay`, `pyBasename`/`pyDirname`/`pyJoin` =
  `posixpath` semantics of `os.path`), so every definition evaluates by
  kernel reduction.
-/

deriving instance DecidableEq for Except

/-- Python `str.startswith`. -/
def pyStartsWith (s p : String) : Bool :=
  p.toList.isPrefixOf s.toList

/-- Python `str.endswith`. -/
def pyEndsWith (s p : String) : Bool :=
  p.toList.isSuffixOf s.toList

/-- substring containment over char lists (`needle in hay` helper). -/
def listContains (needle : List Char) : List Char → Bool
  | [] => needle.isEmpty
  | c :: cs => needle.isPrefixOf (c :: cs) || listContains needle cs

/-- Python `needle in hay` for strings. -/
def pyIn (needle hay : String) : Bool :=
  listContains needle.toList hay.toList

/-- Python `s[n:]`. -/
def pyDropChars (n : Nat) (s : String) : String :=
  String.mk (s.toList.drop n)

/-- `os.path.basename` (posix): everything after the last slash. -/
def pyBasename (p : String) : String :=
  String.mk ((p.toList.reverse.takeWhile (fun c => c ≠ '/')).reverse)

/-- `os.path.dirname` (posix): `p[:p.rfind('/')+1]`, and if that head is
nonempty and not all slashes, trailing slashes are stripped. -/
def pyDirname (p : String) : String :=
  let head := (p.toList.reverse.dropWhile (fun c => c ≠ '/')).reverse
  if head.isEmpty then ""
  else if head.all (fun c => c = '/') then String.mk head
  else String.mk ((head.reverse.dropWhile (fun c => c = '/')).reverse)

/-- `os.path.join(a, b)` (posix, two arguments). -/
def pyJoin (a b : String) : String :=
  if pyStartsWith b "/" then b
  else if a = "" ∨ pyEndsWith a "/" then a ++ b
  else a ++ "/" ++ b

/-- Python truthiness of an optional string (`None` and `""` are falsy). -/
def pyTruthy : Option String → Bool
  | none => false
  | some s => s ≠ ""

/-- A Python exception escaping a call. -/
inductive PyExc where
  | nameError (name : String)
  | ioError (msg : String)
  deriving DecidableEq, Repr

/-- The slice of an SCons `Environment` the finders read and write.
`shlibPre`, `libPre`, `shlibSuf`, `libSuf` hold the construction variables
`SHLIBPREFIX`, `LIBPREFIX`, `SHLIBSUFFIX`, `LIBSUFFIX`. -/
structure Env where
  CPPPATH : List String
  LIBPATH : List String
  LIB : List String
  LIBS : List String
  shlibPre : String
  libPre : String
  shlibSuf : String
  libSuf : String
  deriving DecidableEq, Repr

/-- A fresh `Environment()` with the SCons posix tool defaults
(`LIBPREFIX='lib'`, `SHLIBPREFIX='$LIBPREFIX'`, `LIBSUFFIX='.a'`,
`SHLIBSUFFIX='.so'`) and empty path/library lists. -/
def posixEnv : Env :=
  { CPPPATH := [], LIBPATH := [], LIB := [], LIBS := []
    shlibPre := "lib", libPre := "lib", shlibSuf := ".so", libSuf := ".a" }

/-- One entry of a finder's path list: the code distinguishes
`type(test_path) is list` (an include-dir/lib-dir pair) from a single
directory searched for both. -/
inductive Candidate where
  | single (dir : String)
  | pair (includeDir libDir : String)
  deriving DecidableEq, Repr

/-- Filesystem oracle: `os.walk(root, topdown=False)` results and file
contents (`Except.error` = the `open`/`read` raised `IOError`). -/
structure FileSystem where
  walk : String → List (String × List String)
  readFile : String → Except PyExc String

/-- The overridable per-package methods of `PackageFinder` (Python dynamic
dispatch).  `checkHeader`/`checkLib` take the test environment, a file name
and its directory and return the (possibly mutated) environment plus the
matched directory; `checkVersion` additionally threads `self.version` and can
raise; `compileTest` mutates the environment and reports link success;
`foundPackage` takes `self.env`, the test environment and the found
libs/headers/version and returns the new `self.env` plus the value returned
to the caller. -/
structure Hooks where
  checkHeader : Env → String → String → Env × Option String
  checkLib : Env → String → String → Env × Option String
  checkVersion : Env → String → String → String → Except PyExc (String × Option String)
  compileTest : Env → Env × Bool
  foundPackage : Option Env → Env → String → String → Option String → Option Env × Env

/-- `PackageFinder.getTestEnv`: clone `self.env`, or a fresh `Environment()`
when `self.env is None`. -/
def getTestEnv (se : Option Env) : Env :=
  match se with
  | none => posixEnv
  | some e => e

/-- The arguments `search` hands to `self.foundPackage` on success:
`(test_env, found_libs, found_headers, found_version)`.  `version` is the
version *file path* (`found_version`), `none` when no version file was
located. -/
structure FoundArgs where
  env : Env
  libs : String
  headers : String
  version : Option String
  deriving DecidableEq, Repr

/-- Observable outcome of a finder entry point: the value returned to the
caller (`Found` = `some env`, both `NotFound` and timeout abandonment =
`none`), plus the finder state it leaves behind (`self.env` and
`self.version`). -/
structure RunOut where
  result : Option Env
  selfEnv : Option Env
  version : String
  deriving DecidableEq, Repr

/-- Outcome of a version-walk loop: `aborted` models the
`if self.timedout['timedout']: return` early exit (carrying `self.version`),
`finished` carries `self.version` and `found_version`. -/
inductive VWalk where
  | aborted (ver : String)
  | finished (ver : String) (found : Option String)
  deriving DecidableEq, Repr

/-- Inner `for name in files` loop of the pair branch of
`PackageFinder.search` (and its lib twin): abort (`none`) when the timedout
flag is seen, otherwise call `check` on each file until a match, carrying
the previously found directory. -/
def fileLoop (check : Env → String → String → Env × Option String) (td : Bool) :
    Env → Option String → List String → String → Option (Env × Option String)
  | env, found, [], _root => some (env, found)
  | env, found, f :: rest, root =>
    if td then none
    else
      match check env f root with
      | (env1, some d) => some (env1, some d)
      | (env1, none) => fileLoop check td env1 found rest root

/-- Outer `for root, dirs, files in os.walk(...)` loop around `fileLoop`,
breaking once a directory has been found. -/
def walkLoop (check : Env → String → String → Env × Option String) (td : Bool) :
    Env → Option String → List (String × List String) → Option (Env × Option String)
  | env, found, [] => some (env, found)
  | env, found, (root, files) :: rest =>
    match fileLoop check td env found files root with
    | none => none
    | some (env1, found1) =>
      if found1.isSome then some (env1, found1)
      else walkLoop check td env1 found1 rest

/-- Inner file loop of the single-directory branch of `search`: each file is
first offered to `checkHeader` and, if that does not match, to `checkLib`;
a match of either breaks the file loop. -/
def bothFileLoop (H : Hooks) (td : Bool) :
    Env → Option String → Option String → List String → String →
    Option (Env × Option String × Option String)
  | env, fh, fl, [], _root => some (env, fh, fl)
  | env, fh, fl, f :: rest, root =>
    if td then none
    else
      match H.checkHeader env f root with
      | (env1, some d) => some (env1, some d, fl)
      | (env1, none) =>
        match H.checkLib env1 f root with
        | (env2, some d) => some (env2, fh, some d)
        | (env2, none) => bothFileLoop H td env2 fh fl rest root

/-- Outer walk loop of the single-directory branch, breaking once both a
header directory and a lib directory have been found. -/
def bothWalkLoop (H : Hooks) (td : Bool) :
    Env → Option String → Option String → List (String × List String) →
    Option (Env × Option String × Option String)
  | env, fh, fl, [] => some (env, fh, fl)
  | env, fh, fl, (root, files) :: rest =>
    match bothFileLoop H td env fh fl files root with
    | none => none
    | some (env1, fh1, fl1) =>
      if fh1.isSome && fl1.isSome then some (env1, fh1, fl1)
      else bothWalkLoop H td env1 fh1 fl1 rest

/-- One `test_path` of `PackageFinder.search`: the pair branch walks the
include directory for headers then the lib directory for libraries; the
single branch walks one tree for both.  `none` = the timedout flag made
`search` return. -/
def scanCandidate (H : Hooks) (fs : FileSystem) (td : Bool)
    (env : Env) (fh fl : Option String) :
    Candidate → Option (Env × Option String × Option String)
  | Candidate.pair inc lib =>
    match walkLoop H.checkHeader td env fh (fs.walk inc) with
    | none => none
    | some (env1, fh1) =>
      match walkLoop H.checkLib td env1 fl (fs.walk lib) with
      | none => none
      | some (env2, fl1) => some (env2, fh1, fl1)
  | Candidate.single d => bothWalkLoop H td env fh fl (fs.walk d)

/-- Inner file loop of the version walk in `search`: `checkVersion` is
called on every file (accumulating `self.version`, possibly raising) until
one yields a version file. -/
def versionFileLoop (H : Hooks) (td : Bool) (env : Env) :
    String → Option String → List String → String → Except PyExc VWalk
  | ver, fv, [], _root => Except.ok (VWalk.finished ver fv)
  | ver, fv, f :: rest, root =>
    if td then Except.ok (VWalk.aborted ver)
    else
      match H.checkVersion env f root ver with
      | Except.error e => Except.error e
      | Except.ok (ver1, some v) => Except.ok (VWalk.finished ver1 (some v))
      | Except.ok (ver1, none) => versionFileLoop H td env ver1 fv rest root

/-- Outer root loop of the version walk, breaking once `found_version` is
truthy. -/
def versionWalkLoop (H : Hooks) (td : Bool) (env : Env) :
    String → Option String → List (String × List String) → Except PyExc VWalk
  | ver, fv, [] => Except.ok (VWalk.finished ver fv)
  | ver, fv, (root, files) :: rest =>
    match versionFileLoop H td env ver fv files root with
    | Except.error e => Except.error e
    | Except.ok (VWalk.aborted v) => Except.ok (VWalk.aborted v)
    | Except.ok (VWalk.finished ver1 fv1) =>
      if fv1.isSome then Except.ok (VWalk.finished ver1 fv1)
      else versionWalkLoop H td env ver1 fv1 rest

/-- `PackageFinder.search` up to (but excluding) the `self.foundPackage`
call: iterate over the candidate paths with `found_headers`, `found_libs`,
`found_version` and `test_env` state; on a structurally complete candidate
run the version walk and `compileTest`; on verification failure reset the
candidate-local state to a fresh test environment and continue (faithfully,
the structural-failure branch resets only `found_libs`/`found_headers` — its
last line assigns the typo variable `found_freetype_version`, leaving
`found_version` as it was).  Returns the `FoundArgs` handed to
`foundPackage`, or `none` (falling off the loop and the timedout early
returns both produce Python `None`), plus the final `self.version`. -/
def searchCore (H : Hooks) (fs : FileSystem) (td : Bool) (se : Option Env) :
    Env → Option String → Option String → Option String → String →
    List Candidate → Except PyExc (Option FoundArgs × String)
  | _env, _fh, _fl, _fv, ver, [] => Except.ok (none, ver)
  | env, fh, fl, fv, ver, c :: rest =>
    match scanCandidate H fs td env fh fl c with
    | none => Except.ok (none, ver)
    | some (env1, fh1, fl1) =>
      match fh1, fl1 with
      | some hd, some lb =>
        match versionWalkLoop H td env1 ver fv (fs.walk hd) with
        | Except.error e => Except.error e
        | Except.ok (VWalk.aborted v) => Except.ok (none, v)
        | Except.ok (VWalk.finished ver1 fv1) =>
          match H.compileTest env1 with
          | (env2, true) => Except.ok (some ⟨env2, lb, hd, fv1⟩, ver1)
          | (_env2, false) =>
            searchCore H fs td se (getTestEnv se) none none none ver1 rest
      | _, _ =>
        searchCore H fs td se (getTestEnv se) none none fv ver rest

/-- `PackageFinder.search`: `searchCore` followed by the `foundPackage` call
on success.  The unused `required` parameter of the Python method is
omitted (its body never reads it). -/
def search (H : Hooks) (fs : FileSystem) (td : Bool) (se : Option Env)
    (ver : String) (paths : List Candidate) : Except PyExc RunOut :=
  match searchCore H fs td se (getTestEnv se) none none none ver paths with
  | Except.error e => Except.error e
  | Except.ok (some fa, ver1) =>
    match H.foundPackage se fa.env fa.libs fa.headers fa.version with
    | (se1, renv) => Except.ok ⟨some renv, se1, ver1⟩
  | Except.ok (none, ver1) => Except.ok ⟨none, se, ver1⟩

/-- Oracle for the `pkg-config` interactions of `tryPackageConfig`:
whether a `pkg-config` executable is on `PATH`, the effect of
`env.ParseConfig(cmd)`, and the token list
`check_output(['pkg-config', name, '--cflags']).decode().strip().split(' ')`. -/
structure PkgConfig where
  onPath : Bool
  parseConfig : Env → String → Env
  cflagsOutput : List String

/-- The `for path in header_dirs` loop of `tryPackageConfig`: `-I` entries
are stripped and walked with the version loops; after each entry the loop
breaks once `found_version` is truthy. -/
def pkgHeaderDirsLoop (H : Hooks) (fs : FileSystem) (td : Bool) (env : Env) :
    String → Option String → List String → Except PyExc VWalk
  | ver, fv, [] => Except.ok (VWalk.finished ver fv)
  | ver, fv, p :: rest =>
    if pyStartsWith p "-I" then
      match versionWalkLoop H td env ver fv (fs.walk (pyDropChars 2 p)) with
      | Except.error e => Except.error e
      | Except.ok (VWalk.aborted v) => Except.ok (VWalk.aborted v)
      | Except.ok (VWalk.finished ver1 fv1) =>
        if fv1.isSome then Except.ok (VWalk.finished ver1 fv1)
        else pkgHeaderDirsLoop H fs td env ver1 fv1 rest
    else
      if fv.isSome then Except.ok (VWalk.finished ver fv)
      else pkgHeaderDirsLoop H fs td env ver fv rest

/-- `PackageFinder.tryPackageConfig`: when `pkg-config` is on `PATH`, apply
its flags to a fresh test environment and `compileTest` it; on success,
look for a version file under the reported `-I` directories (plus
`/usr/include`), re-apply the flags to `self.env` when present, and return
the test environment; every other path returns Python `None`. -/
def tryPackageConfigM (H : Hooks) (fs : FileSystem) (pc : PkgConfig) (td : Bool)
    (se : Option Env) (ver : String) (name : String) : Except PyExc RunOut :=
  if pc.onPath then
    match H.compileTest (pc.parseConfig (getTestEnv se)
        ("pkg-config " ++ name ++ " --cflags --libs")) with
    | (test_env1, true) =>
      match pkgHeaderDirsLoop H fs td test_env1 ver none
          (pc.cflagsOutput ++ ["-I/usr/include"]) with
      | Except.error e => Except.error e
      | Except.ok (VWalk.aborted v) => Except.ok ⟨none, se, v⟩
      | Except.ok (VWalk.finished ver1 _fv1) =>
        Except.ok ⟨some test_env1,
          se.map (fun e => pc.parseConfig e
            ("pkg-config " ++ name ++ " --cflags --libs")), ver1⟩
    | (_test_env1, false) => Except.ok ⟨none, se, ver⟩
  else Except.ok ⟨none, se, ver⟩

/-- `PackageFinder.searchThread`: user paths, then `tryPackageConfig`, then
system paths, returning the first truthy result, with
`if self.timedout['timedout']: return` between the phases. -/
def searchThread (H : Hooks) (fs : FileSystem) (pc : PkgConfig) (td : Bool)
    (se : Option Env) (ver : String) (user sys : List Candidate)
    (name : String) : Except PyExc RunOut :=
  match search H fs td se ver user with
  | Except.error e => Except.error e
  | Except.ok r1 =>
    if r1.result.isSome then Except.ok r1
    else if td then Except.ok ⟨none, r1.selfEnv, r1.version⟩
    else
      match tryPackageConfigM H fs pc td r1.selfEnv r1.version name with
      | Except.error e => Except.error e
      | Except.ok r2 =>
        if r2.result.isSome then Except.ok r2
        else if td then Except.ok ⟨none, r2.selfEnv, r2.version⟩
        else
          match search H fs td r2.selfEnv r2.version sys with
          | Except.error e => Except.error e
          | Except.ok r3 =>
            if r3.result.isSome then Except.ok r3
            else Except.ok ⟨none, r3.selfEnv, r3.version⟩

/-- The state `PackageFinder.__init__` builds (the `ColorPrinter` and the
mutable `timedout` dict are represented by the `timedout` flag). -/
structure FinderState where
  env : Option Env
  user_paths : List Candidate
  sys_paths : List Candidate
  required : Bool
  timeout : Option Nat
  version : String
  timedout : Bool
  conf_dir : String
  packagename : String
  deriving DecidableEq, Repr

/-- `PackageFinder.startSearch`.  When `self.timeout` is truthy the body
evaluates `async_result.get(timeout)`: the name `timeout` is bound neither
locally, nor at module scope, nor as a builtin, so Python raises
`NameError` inside the `try`, and the `except TimeoutError` clause does not
catch it — the call raises.  When `self.timeout` is `None` or `0`,
`searchThread` runs synchronously. -/
def startSearch (H : Hooks) (fs : FileSystem) (pc : PkgConfig)
    (st : FinderState) : Except PyExc RunOut :=
  match st.timeout with
  | some t =>
    if t ≠ 0 then Except.error (PyExc.nameError "timeout")
    else searchThread H fs pc st.timedout st.env st.version st.user_paths
          st.sys_paths st.packagename
  | none => searchThread H fs pc st.timedout st.env st.version st.user_paths
      st.sys_paths st.packagename

/-- Match `\s+` (Python whitespace) at the head: requires at least one
whitespace character and consumes the maximal run (the characters that can
follow in the patterns below are never whitespace, so greedy matching is
exact). -/
def stripSpaces1 : List Char → Option (List Char)
  | c :: cs =>
    if c = ' ' ∨ c = '\t' ∨ c = '\n' ∨ c = '\r' ∨ c = Char.ofNat 11 ∨ c = Char.ofNat 12 then
      some (cs.dropWhile (fun d =>
        d = ' ' ∨ d = '\t' ∨ d = '\n' ∨ d = '\r' ∨ d = Char.ofNat 11 ∨ d = Char.ofNat 12))
    else none
  | [] => none

/-- Match a literal at the head of a char list. -/
def stripLit : List Char → List Char → Option (List Char)
  | [], s => some s
  | c :: cs, d :: ds => if c = d then stripLit cs ds else none
  | _ :: _, [] => none

/-- Match `(\d+)` at the head: at least one digit, maximal run (group 1). -/
def takeDigits1 : List Char → Option String
  | c :: cs => if c.isDigit then some (String.mk (c :: cs.takeWhile Char.isDigit)) else none
  | [] => none

/-- Attempt `#define\s+NAME\s+(\d+)` at the head of `s`, returning group 1. -/
def matchDefineAt (name : String) (s : List Char) : Option String :=
  match stripLit "#define".toList s with
  | none => none
  | some s1 =>
    match stripSpaces1 s1 with
    | none => none
    | some s2 =>
      match stripLit name.toList s2 with
      | none => none
      | some s3 =>
        match stripSpaces1 s3 with
        | none => none
        | some s4 => takeDigits1 s4

/-- The suffixes of `s` that start right after a newline, in order. -/
def lineStarts : List Char → List (List Char)
  | [] => []
  | c :: cs => if c = '\n' then cs :: lineStarts cs else lineStarts cs

/-- `re.search(r'^#define\s+NAME\s+(\d+)', contents, re.MULTILINE)`: with
the `^` anchor and `re.MULTILINE`, the match positions are the start of the
string and every position following a newline, tried left to right; the
first position where the pattern matches yields group 1. -/
def searchDefine (name : String) (s : List Char) : Option String :=
  ((s :: lineStarts s).filterMap (matchDefineAt name)).head?

/-- The three accumulation steps shared by every `checkVersion` override:
`self.version += major`, `self.version += "." + minor`,
`self.version += "." + patch`, each conditional on its regex matching. -/
def accumulateVersion (contents : String) (majorName minorName patchName : String)
    (ver : String) : String :=
  let ver1 := match searchDefine majorName contents.toList with
    | some d => ver ++ d
    | none => ver
  let ver2 := match searchDefine minorName contents.toList with
    | some d => ver1 ++ "." ++ d
    | none => ver1
  match searchDefine patchName contents.toList with
  | some d => ver2 ++ "." ++ d
  | none => ver2

/-- `Graphite2Finder.checkHeader`: match `Font.h` inside a directory named
`graphite2`, append the parent directory to `CPPPATH` and return it. -/
def graphite2CheckHeader (env : Env) (file root : String) : Env × Option String :=
  if file = "Font.h" ∧ pyBasename root = "graphite2" then
    ({ env with CPPPATH := env.CPPPATH ++ [pyDirname root] }, some (pyDirname root))
  else (env, none)

/-- `Graphite2Finder.checkLib`.  The suffix test of the source reads
`file.endswith(env["SHLIBSUFFIX"]) or file.endswith(env["SHLIBSUFFIX"])`
— the same shared-library suffix twice (sic); `LIBSUFFIX` is never
consulted. -/
def graphite2CheckLib (env : Env) (file root : String) : Env × Option String :=
  if pyIn "graphite2" file
      && (pyStartsWith file env.shlibPre || pyStartsWith file env.libPre)
      && (pyEndsWith file env.shlibSuf || pyEndsWith file env.shlibSuf) then
    ({ env with LIBPATH := env.LIBPATH ++ [root] }, some root)
  else (env, none)

/-- `Graphite2Finder.checkVersion`: on `Font.h` inside a `graphite2`
directory, open and read the file (the `open` can raise — nothing catches
it) and accumulate `GR2_VERSION_MAJOR/MINOR/BUGFIX` into `self.version`;
the version file path is returned whether or not any regex matched. -/
def graphite2CheckVersion (fs : FileSystem) (_env : Env) (file root : String)
    (ver : String) : Except PyExc (String × Option String) :=
  if file = "Font.h" ∧ pyBasename root = "graphite2" then
    match fs.readFile (pyJoin root file) with
    | Except.error e => Except.error e
    | Except.ok contents =>
      Except.ok (accumulateVersion contents "GR2_VERSION_MAJOR" "GR2_VERSION_MINOR"
        "GR2_VERSION_BUGFIX" ver, some (pyJoin root file))
  else Except.ok (ver, none)

/-- `Graphite2Finder.compileTest`: `env.Append(LIB=['graphite2'])`, then the
`Configure`/`TryLink` compile of the test program, modelled by the
`tryLink` oracle on the augmented environment. -/
def graphite2CompileTest (tryLink : Env → Bool) (env : Env) : Env × Bool :=
  let env1 := { env with LIB := env.LIB ++ ["graphite2"] }
  (env1, tryLink env1)

/-- `Graphite2Finder.foundPackage`: when `self.env` exists, append the found
lib dir, header dir and library name to it and return it; otherwise return
the test environment (`found_version` is ignored). -/
def graphite2FoundPackage (se : Option Env) (env : Env) (found_libs found_headers : String)
    (_found_version : Option String) : Option Env × Env :=
  match se with
  | some e =>
    let e1 := { e with LIBPATH := e.LIBPATH ++ [found_libs],
                       CPPPATH := e.CPPPATH ++ [found_headers],
                       LIB := e.LIB ++ ["graphite2"] }
    (some e1, e1)
  | none => (none, env)

/-- The `Graphite2Finder` method table. -/
def graphite2Hooks (fs : FileSystem) (tryLink : Env → Bool) : Hooks :=
  { checkHeader := graphite2CheckHeader
    checkLib := graphite2CheckLib
    checkVersion := graphite2CheckVersion fs
    compileTest := graphite2CompileTest tryLink
    foundPackage := graphite2FoundPackage }

/-- `FreetypeFinder.checkHeader`: match `ft2build.h` anywhere. -/
def freetypeCheckHeader (env : Env) (file root : String) : Env × Option String :=
  if file = "ft2build.h" then
    ({ env with CPPPATH := env.CPPPATH ++ [root] }, some root)
  else (env, none)

/-- `FreetypeFinder.checkLib`: same shape as `Graphite2Finder.checkLib`,
including the doubled `SHLIBSUFFIX` test (sic). -/
def freetypeCheckLib (env : Env) (file root : String) : Env × Option String :=
  if pyIn "freetype" file
      && (pyStartsWith file env.shlibPre || pyStartsWith file env.libPre)
      && (pyEndsWith file env.shlibSuf || pyEndsWith file env.shlibSuf) then
    ({ env with LIBPATH := env.LIBPATH ++ [root] }, some root)
  else (env, none)

/-- `FreetypeFinder.checkVersion`: on `freetype.h` (any directory), read it
and accumulate `FREETYPE_MAJOR/MINOR/PATCH`. -/
def freetypeCheckVersion (fs : FileSystem) (_env : Env) (file root : String)
    (ver : String) : Except PyExc (String × Option String) :=
  if file = "freetype.h" then
    match fs.readFile (pyJoin root file) with
    | Except.error e => Except.error e
    | Except.ok contents =>
      Except.ok (accumulateVersion contents "FREETYPE_MAJOR" "FREETYPE_MINOR"
        "FREETYPE_PATCH" ver, some (pyJoin root file))
  else Except.ok (ver, none)

/-- `FreetypeFinder.compileTest`: note the source appends to `LIBS` here
(`env.Append(LIBS=['freetype'])`), unlike the graphite2 finder's `LIB`. -/
def freetypeCompileTest (tryLink : Env → Bool) (env : Env) : Env × Bool :=
  let env1 := { env with LIBS := env.LIBS ++ ["freetype"] }
  (env1, tryLink env1)

/-- `FreetypeFinder.foundPackage`. -/
def freetypeFoundPackage (se : Option Env) (env : Env) (found_libs found_headers : String)
    (_found_version : Option String) : Option Env × Env :=
  match se with
  | some e =>
    let e1 := { e with LIBPATH := e.LIBPATH ++ [found_libs],
                       CPPPATH := e.CPPPATH ++ [found_headers],
                       LIB := e.LIB ++ ["freetype"] }
    (some e1, e1)
  | none => (none, env)

/-- The `FreetypeFinder` method table. -/
def freetypeHooks (fs : FileSystem) (tryLink : Env → Bool) : Hooks :=
  { checkHeader := freetypeCheckHeader
    checkLib := freetypeCheckLib
    checkVersion := freetypeCheckVersion fs
    compileTest := freetypeCompileTest tryLink
    foundPackage := freetypeFoundPackage }

/-- `PackageFinder.__init__`: `self.user_paths = paths`, `self.version = ""`,
`self.timedout = {'timedout': False}`, `self.sys_paths` filled by
`addPlatformPaths` (platform-dependent ambient data, passed in as
`sysPaths`), `self.conf_dir = 'confdir'` when the argument is falsy, and an
empty `self.packagename`. -/
def mkFinderState (env : Option Env) (paths : List Candidate) (required : Bool)
    (timeout : Option Nat) (conf_dir : Option String)
    (sysPaths : List Candidate) : FinderState :=
  { env := env, user_paths := paths, sys_paths := sysPaths, required := required,
    timeout := timeout, version := "", timedout := false,
    conf_dir := if pyTruthy conf_dir then conf_dir.getD "" else "confdir",
    packagename := "" }

/-- `PackageFinder.addPlatformPaths` on linux / amd64 target / no cross
compile: the project parent directory, then the `(include, lib)` pairs in
source order. -/
def linuxAmd64SysPaths (parentDir : String) : List Candidate :=
  [Candidate.single parentDir,
   Candidate.pair "/usr/include" "/usr/lib64",
   Candidate.pair "/usr/include" "/usr/lib/x86_64-linux-gnu",
   Candidate.pair "/usr/local/include" "/usr/local/lib",
   Candidate.pair "/usr/include" "/usr/lib"]

/-- `Graphite2Finder.__init__`: the base constructor, then
`self.packagename = 'graphite2'`, then — when truthy — `GRAPHITE2_DIR` from
`os.environ` and from `env.get` are each *appended* to `self.user_paths`. -/
def graphite2Init (osDir envDir : Option String) (env : Option Env)
    (paths : List Candidate) (required : Bool) (timeout : Option Nat)
    (conf_dir : Option String) (sysPaths : List Candidate) : FinderState :=
  let st := { mkFinderState env paths required timeout conf_dir sysPaths with
              packagename := "graphite2" }
  let st := if pyTruthy osDir then
      { st with user_paths := st.user_paths ++ [Candidate.single (osDir.getD "")] }
    else st
  if env.isSome && pyTruthy envDir then
    { st with user_paths := st.user_paths ++ [Candidate.single (envDir.getD "")] }
  else st

/-- `FreetypeFinder.__init__`: as for graphite2, with
`self.packagename = 'freetype2'` and `FREETYPE_DIR`. -/
def freetypeInit (osDir envDir : Option String) (env : Option Env)
    (paths : List Candidate) (required : Bool) (timeout : Option Nat)
    (conf_dir : Option String) (sysPaths : List Candidate) : FinderState :=
  let st := { mkFinderState env paths required timeout conf_dir sysPaths with
              packagename := "freetype2" }
  let st := if pyTruthy osDir then
      { st with user_paths := st.user_paths ++ [Candidate.single (osDir.getD "")] }
    else st
  if env.isSome && pyTruthy envDir then
    { st with user_paths := st.user_paths ++ [Candidate.single (envDir.getD "")] }
  else st

/-- Contents of a graphite2 `Font.h` declaring version 1.2.3. -/
def contentsA : String :=
  "#define GR2_VERSION_MAJOR 1\n#define GR2_VERSION_MINOR 2\n#define GR2_VERSION_BUGFIX 3\n"

/-- Contents of a graphite2 `Font.h` declaring version 4.5.6. -/
def contentsB : String :=
  "#define GR2_VERSION_MAJOR 4\n#define GR2_VERSION_MINOR 5\n#define GR2_VERSION_BUGFIX 6\n"

/-- Concrete filesystem: two complete graphite2 installs under `/a` and
`/b` (shared library first in walk order, header in a `graphite2`
subdirectory), everything else empty/unreadable. -/
def fsAB : FileSystem :=
  { walk := fun r =>
      if r = "/a" then [("/a/lib", ["libgraphite2.so"]), ("/a/graphite2", ["Font.h"])]
      else if r = "/b" then [("/b/lib", ["libgraphite2.so"]), ("/b/graphite2", ["Font.h"])]
      else []
    readFile := fun p =>
      if p = "/a/graphite2/Font.h" then Except.ok contentsA
      else if p = "/b/graphite2/Font.h" then Except.ok contentsB
      else Except.error (PyExc.ioError "No such file or directory") }

/-- Link oracle that only succeeds against the `/b` install. -/
def tlB : Env → Bool := fun e => e.LIBPATH.contains "/b/lib"

/-- `pkg-config` absent from `PATH`. -/
def pcOff : PkgConfig :=
  { onPath := false, parseConfig := fun e _ => e, cflagsOutput := [] }

/-- A `pkg-config` oracle that is present but whose flags change nothing. -/
def pcOn : PkgConfig :=
  { onPath := true, parseConfig := fun e _ => e, cflagsOutput := [] }

/-- Filesystem with a complete graphite2 install under `/e` whose `Font.h`
cannot be read. -/
def fsErr : FileSystem :=
  { walk := fun r =>
      if r = "/e" then [("/e/lib", ["libgraphite2.so"]), ("/e/graphite2", ["Font.h"])]
      else []
    readFile := fun _p => Except.error (PyExc.ioError "Permission denied") }

/-- Filesystem with files that match nothing (for not-found runs), still
nonempty so the timedout flag is consulted. -/
def fsNoMatch : FileSystem :=
  { walk := fun r => if r = "/n" then [("/n", ["README.txt"])] else []
    readFile := fun _p => Except.error (PyExc.ioError "No such file or directory") }

/-- Freetype install under `/u` with headers and shared library but no
`freetype.h` version file anywhere. -/
def fsFt : FileSystem :=
  { walk := fun r =>
      if r = "/u" then [("/u/inc", ["ft2build.h"]), ("/u/lib", ["libfreetype.so"])]
      else if r = "/u/inc" then [("/u/inc", ["ft2build.h"])]
      else []
    readFile := fun _p => Except.error (PyExc.ioError "No such file or directory") }

/-- Link oracle that always succeeds. -/
def tlTrue : Env → Bool := fun _e => true

/-- Test-environment state after scanning the `/a` install (lib dir found
first, then the header parent). -/
def envA1 : Env := { posixEnv with CPPPATH := ["/a"], LIBPATH := ["/a/lib"] }

/-- `envA1` after `compileTest` appended the library name. -/
def envA2f : Env := { envA1 with LIB := ["graphite2"] }

/-- Test-environment state after scanning the `/b` install. -/
def envB1 : Env := { posixEnv with CPPPATH := ["/b"], LIBPATH := ["/b/lib"] }

/-- `envB1` after `compileTest` appended the library name. -/
def envB2 : Env := { envB1 with LIB := ["graphite2"] }

/-- Test-environment state after scanning the `/u` freetype install. -/
def envU1 : Env := { posixEnv with CPPPATH := ["/u/inc"], LIBPATH := ["/u/lib"] }

/-- `envU1` after the freetype `compileTest` appended to `LIBS`. -/
def envU2 : Env := { envU1 with LIBS := ["freetype"] }

/-- C1: for every finder state with a (truthy) timeout set, `startSearch`
raises `NameError` — the body's `async_result.get(timeout)` names an
unbound variable and `except TimeoutError` does not catch `NameError` — so
the bounded search never returns a `TimedOut` outcome at all, let alone
within the bound. -/
theorem startSearch_timeout_raises_nameError (H : Hooks) (fs : FileSystem)
    (pc : PkgConfig) (st : FinderState) (t : Nat)
    (ht : st.timeout = some t) (hnz : t ≠ 0) :
    startSearch H fs pc st = Except.error (PyExc.nameError "timeout") := by
  simp [startSearch, ht, hnz]

/-- Witness for `startSearch_timeout_raises_nameError`: a graphite2 finder
constructed with `timeout=5` raises `NameError` on `startSearch`. -/
theorem startSearch_timeout_raises_nameError_witness :
    (graphite2Init none none none [] false (some 5) none []).timeout = some 5 ∧
    (5 : Nat) ≠ 0 ∧
    startSearch (graphite2Hooks fsNoMatch tlTrue) fsNoMatch pcOff
        (graphite2Init none none none [] false (some 5) none []) =
      Except.error (PyExc.nameError "timeout") :=
  ⟨by decide, by decide,
    startSearch_timeout_raises_nameError (graphite2Hooks fsNoMatch tlTrue) fsNoMatch
      pcOff (graphite2Init none none none [] false (some 5) none []) 5 (by decide)
      (by decide)⟩

/-- C10: both `checkLib` overrides accept a file name exactly when it
contains the package name, starts with `SHLIBPREFIX` or `LIBPREFIX`, and
ends with `SHLIBSUFFIX` (the source tests `SHLIBSUFFIX` twice and never
`LIBSUFFIX`); concretely, on the posix defaults the static library names
`libfreetype.a` / `libgraphite2.a` are rejected even though they carry the
accepted static prefix `LIBPREFIX` and the static suffix `LIBSUFFIX`. -/
theorem checkLib_requires_shlib_suffix :
    (∀ env f r, ((freetypeCheckLib env f r).2).isSome =
      (pyIn "freetype" f && (pyStartsWith f env.shlibPre || pyStartsWith f env.libPre)
        && pyEndsWith f env.shlibSuf)) ∧
    (∀ env f r, ((graphite2CheckLib env f r).2).isSome =
      (pyIn "graphite2" f && (pyStartsWith f env.shlibPre || pyStartsWith f env.libPre)
        && pyEndsWith f env.shlibSuf)) ∧
    freetypeCheckLib posixEnv "libfreetype.a" "/usr/lib" = (posixEnv, none) ∧
    pyStartsWith "libfreetype.a" posixEnv.libPre = true ∧
    pyEndsWith "libfreetype.a" posixEnv.libSuf = true ∧
    graphite2CheckLib posixEnv "libgraphite2.a" "/usr/lib" = (posixEnv, none) ∧
    pyStartsWith "libgraphite2.a" posixEnv.libPre = true ∧
    pyEndsWith "libgraphite2.a" posixEnv.libSuf = true := by
  refine ⟨?_, ?_, by decide, by decide, by decide, by decide, by decide, by decide⟩
  · intro env f r
    by_cases h : (pyIn "freetype" f
        && (pyStartsWith f env.shlibPre || pyStartsWith f env.libPre)
        && pyEndsWith f env.shlibSuf) = true
    · simp [freetypeCheckLib, Bool.or_self, h]
    · simp only [Bool.not_eq_true] at h
      simp [freetypeCheckLib, Bool.or_self, h]
  · intro env f r
    by_cases h : (pyIn "graphite2" f
        && (pyStartsWith f env.shlibPre || pyStartsWith f env.libPre)
        && pyEndsWith f env.shlibSuf) = true
    · simp [graphite2CheckLib, Bool.or_self, h]
    · simp only [Bool.not_eq_true] at h
      simp [graphite2CheckLib, Bool.or_self, h]

/-- C7 counterexample: with `GRAPHITE2_DIR=/b` in the environment and
caller paths `["/a"]`, the override ends up *appended* — `user_paths`
becomes `["/a", "/b"]` and its first candidate is `/a`, not the override
directory, refuting "prepended ... first candidate source tried". -/
theorem override_dir_appended_counterexample :
    (graphite2Init (some "/b") none none [Candidate.single "/a"] false none none
        []).user_paths = [Candidate.single "/a", Candidate.single "/b"] ∧
    ¬ ((graphite2Init (some "/b") none none [Candidate.single "/a"] false none none
        []).user_paths.head? = some (Candidate.single "/b")) := by
  exact ⟨by decide, by decide⟩

/-- C7 amended: when the per-package environment-variable override
(`GRAPHITE2_DIR` / `FREETYPE_DIR`) is set (truthy), its directory is
*appended* to `userPaths` before the search begins, so it is the last
user-path candidate tried (still ahead of the package-manager query and
the system paths). -/
theorem override_dir_appended (paths : List Candidate) (o : String)
    (required : Bool) (timeout : Option Nat) (conf_dir : Option String)
    (sysPaths : List Candidate) (ho : o ≠ "") :
    (graphite2Init (some o) none none paths required timeout conf_dir
        sysPaths).user_paths = paths ++ [Candidate.single o] ∧
    (freetypeInit (some o) none none paths required timeout conf_dir
        sysPaths).user_paths = paths ++ [Candidate.single o] := by
  constructor
  · simp [graphite2Init, mkFinderState, pyTruthy, ho]
  · simp [freetypeInit, mkFinderState, pyTruthy, ho]

/-- Witness for `override_dir_appended` at `o = "/b"`,
`paths = ["/a"]`. -/
theorem override_dir_appended_witness :
    ("/b" : String) ≠ "" ∧
    (graphite2Init (some "/b") none none [Candidate.single "/a"] false none none
        []).user_paths = [Candidate.single "/a"] ++ [Candidate.single "/b"] ∧
    (freetypeInit (some "/b") none none [Candidate.single "/a"] false none none
        []).user_paths = [Candidate.single "/a"] ++ [Candidate.single "/b"] :=
  ⟨by decide,
    (override_dir_appended [Candidate.single "/a"] "/b" false none none []
      (by decide)).1,
    (override_dir_appended [Candidate.single "/a"] "/b" false none none []
      (by decide)).2⟩

/-- C2: the phases of `searchThread` run in the order user paths →
`pkg-config` → system paths, short-circuiting on the first success.
Part 1: if the user-path phase returns a found environment, `searchThread`
returns exactly that result and state for *every* `pkg-config` oracle and
*every* system path list — neither later phase is consulted.  Part 2: if
the user-path phase finds nothing, the `pkg-config` phase runs strictly
before the system paths: a found `pkg-config` result is returned for
*every* system path list. -/
theorem searchThread_userPath_found_shortCircuits :
    (∀ (H : Hooks) (fs : FileSystem) (pc : PkgConfig) (td : Bool)
        (se : Option Env) (ver : String) (user sys : List Candidate)
        (name : String) (r : Env) (se1 : Option Env) (v1 : String),
      search H fs td se ver user = Except.ok ⟨some r, se1, v1⟩ →
      searchThread H fs pc td se ver user sys name =
        Except.ok ⟨some r, se1, v1⟩) ∧
    (∀ (H : Hooks) (fs : FileSystem) (pc : PkgConfig) (se : Option Env)
        (ver : String) (user sys : List Candidate) (name : String)
        (se1 : Option Env) (v1 : String) (r2 : Env) (se2 : Option Env)
        (v2 : String),
      search H fs false se ver user = Except.ok ⟨none, se1, v1⟩ →
      tryPackageConfigM H fs pc false se1 v1 name =
        Except.ok ⟨some r2, se2, v2⟩ →
      searchThread H fs pc false se ver user sys name =
        Except.ok ⟨some r2, se2, v2⟩) := by
  constructor
  · intro H fs pc td se ver user sys name r se1 v1 h
    simp [searchThread, h]
  · intro H fs pc se ver user sys name se1 v1 r2 se2 v2 h1 h2
    simp [searchThread, h1, h2]

/-- Witness for `searchThread_userPath_found_shortCircuits`: a verifying
user path `/b` short-circuits past a present `pkg-config` and a nonempty
system path list (part 1), and with no user match a successful `pkg-config`
result is returned without consulting the system paths (part 2). -/
theorem searchThread_userPath_found_shortCircuits_witness :
    search (graphite2Hooks fsAB tlB) fsAB false none "" [Candidate.single "/b"] =
      Except.ok ⟨some envB2, none, "4.5.6"⟩ ∧
    searchThread (graphite2Hooks fsAB tlB) fsAB pcOn false none ""
        [Candidate.single "/b"] [Candidate.single "/a"] "graphite2" =
      Except.ok ⟨some envB2, none, "4.5.6"⟩ ∧
    searchThread (graphite2Hooks fsNoMatch tlTrue) fsNoMatch pcOn false none ""
        [Candidate.single "/n"] [Candidate.single "/n"] "graphite2" =
      Except.ok ⟨some { posixEnv with LIB := ["graphite2"] }, none, ""⟩ :=
  have h : search (graphite2Hooks fsAB tlB) fsAB false none ""
      [Candidate.single "/b"] = Except.ok ⟨some envB2, none, "4.5.6"⟩ := by decide
  have h1 : search (graphite2Hooks fsNoMatch tlTrue) fsNoMatch false none ""
      [Candidate.single "/n"] = Except.ok ⟨none, none, ""⟩ := by decide
  have h2 : tryPackageConfigM (graphite2Hooks fsNoMatch tlTrue) fsNoMatch pcOn
      false none "" "graphite2" =
      Except.ok ⟨some { posixEnv with LIB := ["graphite2"] }, none, ""⟩ := by decide
  ⟨h, searchThread_userPath_found_shortCircuits.1 (graphite2Hooks fsAB tlB) fsAB
      pcOn false none "" [Candidate.single "/b"] [Candidate.single "/a"]
      "graphite2" envB2 none "4.5.6" h,
    searchThread_userPath_found_shortCircuits.2 (graphite2Hooks fsNoMatch tlTrue)
      fsNoMatch pcOn none "" [Candidate.single "/n"] [Candidate.single "/n"]
      "graphite2" none "" { posixEnv with LIB := ["graphite2"] } none "" h1 h2⟩

/-- Helper: one verification-failed candidate step of `searchCore`
reduces to the search over the remaining candidates from a fresh state. -/
theorem searchCore_fail_step (H : Hooks) (fs : FileSystem) (td : Bool)
    (se : Option Env) (ver verA : String) (a : Candidate) (rest : List Candidate)
    (envA envA2 : Env) (hA lA : String) (fvA : Option String)
    (hscan : scanCandidate H fs td (getTestEnv se) none none a =
      some (envA, some hA, some lA))
    (hver : versionWalkLoop H td envA ver none (fs.walk hA) =
      Except.ok (VWalk.finished verA fvA))
    (hcomp : H.compileTest envA = (envA2, false)) :
    searchCore H fs td se (getTestEnv se) none none none ver (a :: rest) =
      searchCore H fs td se (getTestEnv se) none none none verA rest := by
  simp [searchCore, hscan, hver, hcomp]

/-- C4: a candidate that yields both a header root and a lib root but fails
`compileTest` is abandoned entirely: the search over the remaining
candidates restarts from a fresh clone of the caller environment with
`found_headers`, `found_libs` and `found_version` all cleared, so whatever
`Found` the remainder produces owes nothing to the failed candidate (only
`self.version` carries over — see the C9 theorem). -/
theorem failed_candidate_abandoned (H : Hooks) (fs : FileSystem) (td : Bool)
    (se : Option Env) (ver verA : String) (a : Candidate) (rest : List Candidate)
    (envA envA2 : Env) (hA lA : String) (fvA : Option String)
    (hscan : scanCandidate H fs td (getTestEnv se) none none a =
      some (envA, some hA, some lA))
    (hver : versionWalkLoop H td envA ver none (fs.walk hA) =
      Except.ok (VWalk.finished verA fvA))
    (hcomp : H.compileTest envA = (envA2, false)) :
    searchCore H fs td se (getTestEnv se) none none none ver (a :: rest) =
      searchCore H fs td se (getTestEnv se) none none none verA rest := by
  simp [searchCore, hscan, hver, hcomp]

/-- Witness for `failed_candidate_abandoned`: `/a` yields header+lib but
fails the link test, `/b` yields header+lib and succeeds; the run on
`[/a, /b]` equals the run on `[/b]` alone, and its `Found` has header `/b`
and lib `/b/lib` — both from the second candidate, nothing from `/a`. -/
theorem failed_candidate_abandoned_witness :
    scanCandidate (graphite2Hooks fsAB tlB) fsAB false (getTestEnv none) none none
        (Candidate.single "/a") = some (envA1, some "/a", some "/a/lib") ∧
    searchCore (graphite2Hooks fsAB tlB) fsAB false none (getTestEnv none)
        none none none "" [Candidate.single "/a", Candidate.single "/b"] =
      searchCore (graphite2Hooks fsAB tlB) fsAB false none (getTestEnv none)
        none none none "1.2.3" [Candidate.single "/b"] ∧
    searchCore (graphite2Hooks fsAB tlB) fsAB false none (getTestEnv none)
        none none none "" [Candidate.single "/a", Candidate.single "/b"] =
      Except.ok (some ⟨envB2, "/b/lib", "/b", some "/b/graphite2/Font.h"⟩,
        "1.2.34.5.6") :=
  have h1 : scanCandidate (graphite2Hooks fsAB tlB) fsAB false (getTestEnv none)
      none none (Candidate.single "/a") = some (envA1, some "/a", some "/a/lib") := by
    decide
  have h2 : versionWalkLoop (graphite2Hooks fsAB tlB) false envA1 "" none
      (fsAB.walk "/a") = Except.ok (VWalk.finished "1.2.3"
        (some "/a/graphite2/Font.h")) := by decide
  have h3 : (graphite2Hooks fsAB tlB).compileTest envA1 = (envA2f, false) := by
    decide
  ⟨h1, failed_candidate_abandoned (graphite2Hooks fsAB tlB) fsAB false none ""
      "1.2.3" (Candidate.single "/a") [Candidate.single "/b"] envA1 envA2f "/a"
      "/a/lib" (some "/a/graphite2/Font.h") h1 h2 h3, by decide⟩

/-- C8: a candidate that yields header+lib and passes `compileTest` is
returned as `Found` whatever the version walk produced — in particular with
`found_version = none` (no version file located) or with an unparsed
version file (`self.version` unchanged); version extraction can neither
disqualify the candidate nor fail the search. -/
theorem version_absent_still_found (H : Hooks) (fs : FileSystem) (td : Bool)
    (se : Option Env) (ver ver1 : String) (c : Candidate) (rest : List Candidate)
    (env1 env2 : Env) (hd lb : String) (fv1 : Option String)
    (hscan : scanCandidate H fs td (getTestEnv se) none none c =
      some (env1, some hd, some lb))
    (hver : versionWalkLoop H td env1 ver none (fs.walk hd) =
      Except.ok (VWalk.finished ver1 fv1))
    (hcomp : H.compileTest env1 = (env2, true)) :
    searchCore H fs td se (getTestEnv se) none none none ver (c :: rest) =
      Except.ok (some ⟨env2, lb, hd, fv1⟩, ver1) ∧
    search H fs td se ver (c :: rest) =
      Except.ok ⟨some (H.foundPackage se env2 lb hd fv1).2,
        (H.foundPackage se env2 lb hd fv1).1, ver1⟩ := by
  have h1 : searchCore H fs td se (getTestEnv se) none none none ver (c :: rest) =
      Except.ok (some ⟨env2, lb, hd, fv1⟩, ver1) := by
    simp [searchCore, hscan, hver, hcomp]
  refine ⟨h1, ?_⟩
  rcases hfp : H.foundPackage se env2 lb hd fv1 with ⟨se1, renv⟩
  simp [search, h1, hfp]

/-- Witness for `version_absent_still_found`: a freetype install under `/u`
with no `freetype.h` anywhere verifies and is returned as `Found` with
`found_version = none` and `self.version` still empty. -/
theorem version_absent_still_found_witness :
    scanCandidate (freetypeHooks fsFt tlTrue) fsFt false (getTestEnv none) none none
        (Candidate.single "/u") = some (envU1, some "/u/inc", some "/u/lib") ∧
    versionWalkLoop (freetypeHooks fsFt tlTrue) false envU1 "" none
        (fsFt.walk "/u/inc") = Except.ok (VWalk.finished "" none) ∧
    search (freetypeHooks fsFt tlTrue) fsFt false none "" [Candidate.single "/u"] =
      Except.ok ⟨some envU2, none, ""⟩ :=
  have h1 : scanCandidate (freetypeHooks fsFt tlTrue) fsFt false (getTestEnv none)
      none none (Candidate.single "/u") =
      some (envU1, some "/u/inc", some "/u/lib") := by decide
  have h2 : versionWalkLoop (freetypeHooks fsFt tlTrue) false envU1 "" none
      (fsFt.walk "/u/inc") = Except.ok (VWalk.finished "" none) := by decide
  have h3 : (freetypeHooks fsFt tlTrue).compileTest envU1 = (envU2, true) := by
    decide
  ⟨h1, h2, by
    have := (version_absent_still_found (freetypeHooks fsFt tlTrue) fsFt false none
      "" "" (Candidate.single "/u") [] envU1 envU2 "/u/inc" "/u/lib" none h1 h2
      h3).2
    simpa using this⟩

/-- C9: `self.version` is initialized once in the constructor and never
reset between candidate attempts, so when an abandoned candidate's version
walk appended `sA` and the later successful candidate's walk appended `sB`,
the version accompanying the final `Found` is the concatenation
`ver ++ sA ++ sB` — components parsed from the failed candidate leak into
the reported version. -/
theorem version_accumulates_across_candidates (H : Hooks) (fs : FileSystem)
    (td : Bool) (se : Option Env) (ver sA sB : String) (a b : Candidate)
    (envA envA2 envB envB2x : Env) (hA lA hB lB : String) (fvA fvB : Option String)
    (hscanA : scanCandidate H fs td (getTestEnv se) none none a =
      some (envA, some hA, some lA))
    (hverA : versionWalkLoop H td envA ver none (fs.walk hA) =
      Except.ok (VWalk.finished (ver ++ sA) fvA))
    (hcompA : H.compileTest envA = (envA2, false))
    (hscanB : scanCandidate H fs td (getTestEnv se) none none b =
      some (envB, some hB, some lB))
    (hverB : versionWalkLoop H td envB (ver ++ sA) none (fs.walk hB) =
      Except.ok (VWalk.finished (ver ++ sA ++ sB) fvB))
    (hcompB : H.compileTest envB = (envB2x, true)) :
    search H fs td se ver [a, b] =
      Except.ok ⟨some (H.foundPackage se envB2x lB hB fvB).2,
        (H.foundPackage se envB2x lB hB fvB).1, ver ++ sA ++ sB⟩ := by
  have h1 : searchCore H fs td se (getTestEnv se) none none none ver [a, b] =
      Except.ok (some ⟨envB2x, lB, hB, fvB⟩, ver ++ sA ++ sB) := by
    have hstep := searchCore_fail_step H fs td se ver (ver ++ sA) a [b]
      envA envA2 hA lA fvA hscanA hverA hcompA
    rw [hstep]
    simp [searchCore, hscanB, hverB, hcompB]
  rcases hfp : H.foundPackage se envB2x lB hB fvB with ⟨se1, renv⟩
  simp [search, h1, hfp]

/-- Witness for `version_accumulates_across_candidates`: `/a` parses
version `1.2.3` and fails the link, `/b` parses `4.5.6` and succeeds; the
final version string is `"1.2.34.5.6"`. -/
theorem version_accumulates_across_candidates_witness :
    search (graphite2Hooks fsAB tlB) fsAB false none ""
        [Candidate.single "/a", Candidate.single "/b"] =
      Except.ok ⟨some envB2, none, "" ++ "1.2.3" ++ "4.5.6"⟩ ∧
    ("" ++ "1.2.3" ++ "4.5.6" : String) = "1.2.34.5.6" :=
  have hscanA : scanCandidate (graphite2Hooks fsAB tlB) fsAB false (getTestEnv none)
      none none (Candidate.single "/a") = some (envA1, some "/a", some "/a/lib") := by
    decide
  have hverA : versionWalkLoop (graphite2Hooks fsAB tlB) false envA1 "" none
      (fsAB.walk "/a") =
      Except.ok (VWalk.finished ("" ++ "1.2.3") (some "/a/graphite2/Font.h")) := by
    decide
  have hcompA : (graphite2Hooks fsAB tlB).compileTest envA1 = (envA2f, false) := by
    decide
  have hscanB : scanCandidate (graphite2Hooks fsAB tlB) fsAB false (getTestEnv none)
      none none (Candidate.single "/b") = some (envB1, some "/b", some "/b/lib") := by
    decide
  have hverB : versionWalkLoop (graphite2Hooks fsAB tlB) false envB1 ("" ++ "1.2.3")
      none (fsAB.walk "/b") =
      Except.ok (VWalk.finished ("" ++ "1.2.3" ++ "4.5.6")
        (some "/b/graphite2/Font.h")) := by decide
  have hcompB : (graphite2Hooks fsAB tlB).compileTest envB1 = (envB2, true) := by
    decide
  ⟨by
    have := version_accumulates_across_candidates (graphite2Hooks fsAB tlB) fsAB
      false none "" "1.2.3" "4.5.6" (Candidate.single "/a") (Candidate.single "/b")
      envA1 envA2f envB1 envB2 "/a" "/a/lib" "/b" "/b/lib"
      (some "/a/graphite2/Font.h") (some "/b/graphite2/Font.h")
      hscanA hverA hcompA hscanB hverB hcompB
    simpa using this, by decide⟩

/-- Helper: with the timedout flag set, a file loop aborts on its first
file and passes through empty file lists. -/
theorem fileLoop_true (check : Env → String → String → Env × Option String)
    (env : Env) (found : Option String) (root : String) :
    ∀ files, fileLoop check true env found files root =
      match files with
      | [] => some (env, found)
      | _ :: _ => none := by
  intro files
  cases files <;> simp [fileLoop]

/-- Helper: with the timedout flag set and nothing found yet, a walk loop
either passes through unchanged (every directory empty) or aborts. -/
theorem walkLoop_true_none (check : Env → String → String → Env × Option String) :
    ∀ w (env : Env), walkLoop check true env none w = some (env, none) ∨
      walkLoop check true env none w = none := by
  intro w
  induction w with
  | nil => intro env; left; simp [walkLoop]
  | cons rf rest ih =>
    intro env
    obtain ⟨root, files⟩ := rf
    cases files with
    | nil => simpa [walkLoop, fileLoop] using ih env
    | cons f fl => right; simp [walkLoop, fileLoop]

/-- Helper: `fileLoop_true` for the single-directory file loop. -/
theorem bothFileLoop_true (H : Hooks) (env : Env) (fh fl : Option String)
    (root : String) :
    ∀ files, bothFileLoop H true env fh fl files root =
      match files with
      | [] => some (env, fh, fl)
      | _ :: _ => none := by
  intro files
  cases files <;> simp [bothFileLoop]

/-- Helper: `walkLoop_true_none` for the single-directory walk loop. -/
theorem bothWalkLoop_true_none (H : Hooks) :
    ∀ w (env : Env), bothWalkLoop H true env none none w = some (env, none, none) ∨
      bothWalkLoop H true env none none w = none := by
  intro w
  induction w with
  | nil => intro env; left; simp [bothWalkLoop]
  | cons rf rest ih =>
    intro env
    obtain ⟨root, files⟩ := rf
    cases files with
    | nil => simpa [bothWalkLoop, bothFileLoop] using ih env
    | cons f fl => right; simp [bothWalkLoop, bothFileLoop]

/-- Helper: with the timedout flag set, scanning a candidate finds nothing
or aborts, and never touches the environment. -/
theorem scanCandidate_true (H : Hooks) (fs : FileSystem) (env : Env)
    (c : Candidate) :
    scanCandidate H fs true env none none c = some (env, none, none) ∨
    scanCandidate H fs true env none none c = none := by
  cases c with
  | pair inc lib =>
    rcases walkLoop_true_none H.checkHeader (fs.walk inc) env with h | h
    · rcases walkLoop_true_none H.checkLib (fs.walk lib) env with h2 | h2
      · left; simp [scanCandidate, h, h2]
      · right; simp [scanCandidate, h, h2]
    · right; simp [scanCandidate, h]
  | single d =>
    rcases bothWalkLoop_true_none H (fs.walk d) env with h | h
    · left; simp [scanCandidate, h]
    · right; simp [scanCandidate, h]

/-- Helper: with the timedout flag set, `searchCore` returns Python `None`
with `self.version` untouched. -/
theorem searchCore_true (H : Hooks) (fs : FileSystem) (se : Option Env) :
    ∀ cs (env : Env) (fv : Option String) (ver : String),
      searchCore H fs true se env none none fv ver cs = Except.ok (none, ver) := by
  intro cs
  induction cs with
  | nil => intro env fv ver; simp [searchCore]
  | cons c rest ih =>
    intro env fv ver
    rcases scanCandidate_true H fs env c with h | h
    · simp [searchCore, h, ih]
    · simp [searchCore, h]

/-- Helper: with the timedout flag set, `search` returns Python `None` and
leaves the finder state untouched. -/
theorem search_true (H : Hooks) (fs : FileSystem) (se : Option Env)
    (ver : String) (paths : List Candidate) :
    search H fs true se ver paths = Except.ok ⟨none, se, ver⟩ := by
  simp [search, searchCore_true]

/-- C3 amended: the abandonment path of a timed-out search returns exactly
the value `None` — the same value an exhausted (`NotFound`) search returns —
with no partial `Found` and the finder state untouched; the caller cannot
tell `TimedOut` from `NotFound` by the returned value (only the finder's
`timedout` flag and the log line differ), while `Found` is the one
distinguishable outcome (a non-`None` environment). -/
theorem searchThread_timedout_returns_none (H : Hooks) (fs : FileSystem)
    (pc : PkgConfig) (se : Option Env) (ver : String) (user sys : List Candidate)
    (name : String) :
    searchThread H fs pc true se ver user sys name = Except.ok ⟨none, se, ver⟩ := by
  simp [searchThread, search_true]

/-- C3 counterexample: on the same no-match tree, the timed-out run
(`timedout` flag set) and the exhausted `NotFound` run return the *same*
value `Except.ok ⟨none, none, ""⟩` — the two failure outcomes are not
distinct, distinguishable values to the caller. -/
theorem timedOut_notFound_same_value_counterexample :
    searchThread (graphite2Hooks fsNoMatch tlTrue) fsNoMatch pcOff true none ""
        [Candidate.single "/n"] [] "graphite2" =
      searchThread (graphite2Hooks fsNoMatch tlTrue) fsNoMatch pcOff false none ""
        [Candidate.single "/n"] [] "graphite2" ∧
    searchThread (graphite2Hooks fsNoMatch tlTrue) fsNoMatch pcOff true none ""
        [Candidate.single "/n"] [] "graphite2" = Except.ok ⟨none, none, ""⟩ := by
  exact ⟨by decide, by decide⟩

/-- Helper: `search` mutates `self.env` only through `foundPackage`; a run
returning Python `None` leaves it exactly as it was. -/
theorem search_none_selfEnv (H : Hooks) (fs : FileSystem) (td : Bool)
    (se : Option Env) (ver : String) (paths : List Candidate) (r : RunOut)
    (h : search H fs td se ver paths = Except.ok r) (hr : r.result = none) :
    r.selfEnv = se := by
  unfold search at h
  split at h
  · cases h
  · cases h
    simp at hr
  · cases h
    rfl

/-- Helper: `tryPackageConfig` mutates `self.env` only on its success path;
a run returning Python `None` leaves it exactly as it was. -/
theorem tryPackageConfigM_none_selfEnv (H : Hooks) (fs : FileSystem)
    (pc : PkgConfig) (td : Bool) (se : Option Env) (ver : String) (name : String)
    (r : RunOut)
    (h : tryPackageConfigM H fs pc td se ver name = Except.ok r)
    (hr : r.result = none) : r.selfEnv = se := by
  unfold tryPackageConfigM at h
  split at h
  · split at h
    · split at h
      · simp at h
      · cases h
        rfl
      · cases h
        simp at hr
    · cases h
      rfl
  · cases h
    rfl

/-- C5: when `searchThread` produces no `Found` (it returns Python `None`),
the caller-supplied environment is exactly what it started as — every
candidate attempt ran on a fresh clone (`getTestEnv`), and neither the
failed search phases nor a failed `pkg-config` phase touched `self.env`.
Since this holds for every initial `version`, running the resolution twice
under all-fail conditions leaves the environment untouched both times. -/
theorem searchThread_failure_preserves_env (H : Hooks) (fs : FileSystem)
    (pc : PkgConfig) (td : Bool) (se : Option Env) (ver : String)
    (user sys : List Candidate) (name : String) (r : RunOut)
    (h : searchThread H fs pc td se ver user sys name = Except.ok r)
    (hr : r.result = none) : r.selfEnv = se := by
  unfold searchThread at h
  cases hs1 : search H fs td se ver user with
  | error e => rw [hs1] at h; simp at h
  | ok r1 =>
    rw [hs1] at h
    dsimp only at h
    by_cases h1 : r1.result.isSome
    · rw [if_pos h1] at h
      cases h
      rw [hr] at h1
      simp at h1
    · rw [if_neg h1] at h
      have hr1 : r1.result = none := Option.not_isSome_iff_eq_none.mp h1
      have hse1 : r1.selfEnv = se := search_none_selfEnv H fs td se ver user r1 hs1 hr1
      by_cases htd : td = true
      · rw [if_pos htd] at h
        cases h
        exact hse1
      · rw [if_neg htd] at h
        cases hs2 : tryPackageConfigM H fs pc td r1.selfEnv r1.version name with
        | error e => rw [hs2] at h; simp at h
        | ok r2 =>
          rw [hs2] at h
          dsimp only at h
          by_cases h2 : r2.result.isSome
          · rw [if_pos h2] at h
            cases h
            rw [hr] at h2
            simp at h2
          · rw [if_neg h2] at h
            have hr2 : r2.result = none := Option.not_isSome_iff_eq_none.mp h2
            have hse2 : r2.selfEnv = r1.selfEnv :=
              tryPackageConfigM_none_selfEnv H fs pc td r1.selfEnv r1.version name
                r2 hs2 hr2
            rw [if_neg htd] at h
            cases hs3 : search H fs td r2.selfEnv r2.version sys with
            | error e => rw [hs3] at h; simp at h
            | ok r3 =>
              rw [hs3] at h
              dsimp only at h
              by_cases h3 : r3.result.isSome
              · rw [if_pos h3] at h
                cases h
                rw [hr] at h3
                simp at h3
              · rw [if_neg h3] at h
                have hr3 : r3.result = none := Option.not_isSome_iff_eq_none.mp h3
                have hse3 : r3.selfEnv = r2.selfEnv :=
                  search_none_selfEnv H fs td r2.selfEnv r2.version sys r3 hs3 hr3
                cases h
                rw [hse3, hse2, hse1]

/-- Witness for `searchThread_failure_preserves_env`: an all-fail run over
a caller environment returns `None` and leaves `self.env` as it was. -/
theorem searchThread_failure_preserves_env_witness :
    searchThread (graphite2Hooks fsNoMatch tlTrue) fsNoMatch pcOff false
        (some posixEnv) "" [Candidate.single "/n"] [Candidate.single "/n"]
        "graphite2" = Except.ok ⟨none, some posixEnv, ""⟩ ∧
    (RunOut.mk none (some posixEnv) "").result = none ∧
    (RunOut.mk none (some posixEnv) "").selfEnv = some posixEnv :=
  have h : searchThread (graphite2Hooks fsNoMatch tlTrue) fsNoMatch pcOff false
      (some posixEnv) "" [Candidate.single "/n"] [Candidate.single "/n"]
      "graphite2" = Except.ok ⟨none, some posixEnv, ""⟩ := by decide
  ⟨h, rfl, searchThread_failure_preserves_env (graphite2Hooks fsNoMatch tlTrue)
      fsNoMatch pcOff false (some posixEnv) "" [Candidate.single "/n"]
      [Candidate.single "/n"] "graphite2" ⟨none, some posixEnv, ""⟩ h rfl⟩

/-- C6 counterexample: a structurally complete graphite2 install under `/e`
whose matched `Font.h` cannot be opened makes the whole resolution raise
`IOError` — the error is not absorbed as "this source yields nothing"; it
escapes `checkVersion`, `search` and `searchThread` to the caller. -/
theorem version_read_error_escapes_counterexample :
    searchThread (graphite2Hooks fsErr tlTrue) fsErr pcOff false none ""
        [Candidate.single "/e"] [] "graphite2" =
      Except.error (PyExc.ioError "Permission denied") := by
  decide

/-- Helper: with a total `checkVersion`, the version file loop cannot
raise. -/
theorem versionFileLoop_ok (H : Hooks) (td : Bool) (env : Env)
    (hv : ∀ e f r v, ∃ out, H.checkVersion e f r v = Except.ok out) :
    ∀ files (ver : String) (fv : Option String) (root : String),
      ∃ w, versionFileLoop H td env ver fv files root = Except.ok w := by
  intro files
  induction files with
  | nil => intro ver fv root; exact ⟨VWalk.finished ver fv, rfl⟩
  | cons f rest ih =>
    intro ver fv root
    by_cases htd : td = true
    · exact ⟨VWalk.aborted ver, by simp [versionFileLoop, htd]⟩
    · have htd2 : td = false := by simpa using htd
      subst htd2
      obtain ⟨out, hout⟩ := hv env f root ver
      obtain ⟨ver1, vf⟩ := out
      cases vf with
      | some v =>
        exact ⟨VWalk.finished ver1 (some v), by simp [versionFileLoop, hout]⟩
      | none =>
        obtain ⟨w, hw⟩ := ih ver1 fv root
        exact ⟨w, by simp [versionFileLoop, hout, hw]⟩

/-- Helper: with a total `checkVersion`, the version walk loop cannot
raise. -/
theorem versionWalkLoop_ok (H : Hooks) (td : Bool) (env : Env)
    (hv : ∀ e f r v, ∃ out, H.checkVersion e f r v = Except.ok out) :
    ∀ w (ver : String) (fv : Option String),
      ∃ out, versionWalkLoop H td env ver fv w = Except.ok out := by
  intro w
  induction w with
  | nil => intro ver fv; exact ⟨VWalk.finished ver fv, rfl⟩
  | cons rf rest ih =>
    intro ver fv
    obtain ⟨root, files⟩ := rf
    obtain ⟨vf, hvf⟩ := versionFileLoop_ok H td env hv files ver fv root
    cases vf with
    | aborted v => exact ⟨VWalk.aborted v, by simp [versionWalkLoop, hvf]⟩
    | finished ver1 fv1 =>
      by_cases hs : fv1.isSome = true
      · exact ⟨VWalk.finished ver1 fv1, by simp [versionWalkLoop, hvf, hs]⟩
      · obtain ⟨w2, hw2⟩ := ih ver1 fv1
        exact ⟨w2, by simp [versionWalkLoop, hvf, hs, hw2]⟩

/-- Helper: with a total `checkVersion`, `searchCore` cannot raise. -/
theorem searchCore_ok (H : Hooks) (fs : FileSystem) (td : Bool) (se : Option Env)
    (hv : ∀ e f r v, ∃ out, H.checkVersion e f r v = Except.ok out) :
    ∀ cs (env : Env) (fh fl fv : Option String) (ver : String),
      ∃ out, searchCore H fs td se env fh fl fv ver cs = Except.ok out := by
  intro cs
  induction cs with
  | nil => intro env fh fl fv ver; exact ⟨(none, ver), rfl⟩
  | cons c rest ih =>
    intro env fh fl fv ver
    cases hscan : scanCandidate H fs td env fh fl c with
    | none => exact ⟨(none, ver), by simp [searchCore, hscan]⟩
    | some trip =>
      obtain ⟨env1, fh1, fl1⟩ := trip
      cases fh1 with
      | none =>
        obtain ⟨w2, hw2⟩ := ih (getTestEnv se) none none fv ver
        exact ⟨w2, by simp [searchCore, hscan, hw2]⟩
      | some hd =>
        cases fl1 with
        | none =>
          obtain ⟨w2, hw2⟩ := ih (getTestEnv se) none none fv ver
          exact ⟨w2, by simp [searchCore, hscan, hw2]⟩
        | some lb =>
          obtain ⟨vw, hvw⟩ := versionWalkLoop_ok H td env1 hv (fs.walk hd) ver fv
          cases vw with
          | aborted v => exact ⟨(none, v), by simp [searchCore, hscan, hvw]⟩
          | finished ver1 fv1 =>
            rcases hct : H.compileTest env1 with ⟨env2, ok⟩
            cases ok with
            | true =>
              exact ⟨(some ⟨env2, lb, hd, fv1⟩, ver1),
                by simp [searchCore, hscan, hvw, hct]⟩
            | false =>
              obtain ⟨w2, hw2⟩ := ih (getTestEnv se) none none none ver1
              exact ⟨w2, by simp [searchCore, hscan, hvw, hct, hw2]⟩

/-- Helper: with a total `checkVersion`, `search` cannot raise. -/
theorem search_ok (H : Hooks) (fs : FileSystem) (td : Bool) (se : Option Env)
    (ver : String) (paths : List Candidate)
    (hv : ∀ e f r v, ∃ out, H.checkVersion e f r v = Except.ok out) :
    ∃ r, search H fs td se ver paths = Except.ok r := by
  obtain ⟨out, hout⟩ := searchCore_ok H fs td se hv paths (getTestEnv se)
    none none none ver
  obtain ⟨o, v⟩ := out
  cases o with
  | none => exact ⟨⟨none, se, v⟩, by simp [search, hout]⟩
  | some fa =>
    rcases hfp : H.foundPackage se fa.env fa.libs fa.headers fa.version with ⟨se1, renv⟩
    exact ⟨⟨some renv, se1, v⟩, by simp [search, hout, hfp]⟩

/-- Helper: with a total `checkVersion`, the `pkg-config` header-dir loop
cannot raise. -/
theorem pkgHeaderDirsLoop_ok (H : Hooks) (fs : FileSystem) (td : Bool) (env : Env)
    (hv : ∀ e f r v, ∃ out, H.checkVersion e f r v = Except.ok out) :
    ∀ dirs (ver : String) (fv : Option String),
      ∃ out, pkgHeaderDirsLoop H fs td env ver fv dirs = Except.ok out := by
  intro dirs
  induction dirs with
  | nil => intro ver fv; exact ⟨VWalk.finished ver fv, rfl⟩
  | cons p rest ih =>
    intro ver fv
    by_cases hp : pyStartsWith p "-I" = true
    · obtain ⟨vw, hvw⟩ := versionWalkLoop_ok H td env hv
        (fs.walk (pyDropChars 2 p)) ver fv
      cases vw with
      | aborted v => exact ⟨VWalk.aborted v, by simp [pkgHeaderDirsLoop, hp, hvw]⟩
      | finished ver1 fv1 =>
        by_cases hs : fv1.isSome = true
        · exact ⟨VWalk.finished ver1 fv1, by simp [pkgHeaderDirsLoop, hp, hvw, hs]⟩
        · obtain ⟨w2, hw2⟩ := ih ver1 fv1
          exact ⟨w2, by simp [pkgHeaderDirsLoop, hp, hvw, hs, hw2]⟩
    · by_cases hs : fv.isSome = true
      · exact ⟨VWalk.finished ver fv, by simp [pkgHeaderDirsLoop, hp, hs]⟩
      · obtain ⟨w2, hw2⟩ := ih ver fv
        exact ⟨w2, by simp [pkgHeaderDirsLoop, hp, hs, hw2]⟩

/-- Helper: with a total `checkVersion`, `tryPackageConfig` cannot raise. -/
theorem tryPackageConfigM_ok (H : Hooks) (fs : FileSystem) (pc : PkgConfig)
    (td : Bool) (se : Option Env) (ver : String) (name : String)
    (hv : ∀ e f r v, ∃ out, H.checkVersion e f r v = Except.ok out) :
    ∃ r, tryPackageConfigM H fs pc td se ver name = Except.ok r := by
  by_cases hp : pc.onPath = true
  · rcases hct : H.compileTest (pc.parseConfig (getTestEnv se)
        ("pkg-config " ++ name ++ " --cflags --libs")) with ⟨te1, ok⟩
    cases ok with
    | true =>
      obtain ⟨vw, hvw⟩ := pkgHeaderDirsLoop_ok H fs td te1 hv
        (pc.cflagsOutput ++ ["-I/usr/include"]) ver none
      cases vw with
      | aborted v =>
        exact ⟨⟨none, se, v⟩, by simp [tryPackageConfigM, hp, hct, hvw]⟩
      | finished ver1 fv1 =>
        exact ⟨⟨some te1, se.map (fun e => pc.parseConfig e
            ("pkg-config " ++ name ++ " --cflags --libs")), ver1⟩,
          by simp [tryPackageConfigM, hp, hct, hvw]⟩
    | false => exact ⟨⟨none, se, ver⟩, by simp [tryPackageConfigM, hp, hct]⟩
  · exact ⟨⟨none, se, ver⟩, by simp [tryPackageConfigM, hp]⟩

/-- Helper: with a total `checkVersion`, `searchThread` cannot raise. -/
theorem searchThread_ok (H : Hooks) (fs : FileSystem) (pc : PkgConfig)
    (td : Bool) (se : Option Env) (ver : String) (user sys : List Candidate)
    (name : String)
    (hv : ∀ e f r v, ∃ out, H.checkVersion e f r v = Except.ok out) :
    ∃ r, searchThread H fs pc td se ver user sys name = Except.ok r := by
  obtain ⟨r1, h1⟩ := search_ok H fs td se ver user hv
  by_cases hr1 : r1.result.isSome = true
  · exact ⟨r1, by simp [searchThread, h1, hr1]⟩
  · by_cases htd : td = true
    · subst htd
      exact ⟨⟨none, r1.selfEnv, r1.version⟩, by simp [searchThread, h1, hr1]⟩
    · have htd2 : td = false := by simpa using htd
      subst htd2
      obtain ⟨r2, h2⟩ := tryPackageConfigM_ok H fs pc false r1.selfEnv r1.version
        name hv
      by_cases hr2 : r2.result.isSome = true
      · exact ⟨r2, by simp [searchThread, h1, hr1, h2, hr2]⟩
      · obtain ⟨r3, h3⟩ := search_ok H fs false r2.selfEnv r2.version sys hv
        by_cases hr3 : r3.result.isSome = true
        · exact ⟨r3, by simp [searchThread, h1, hr1, h2, hr2, h3, hr3]⟩
        · exact ⟨⟨none, r3.selfEnv, r3.version⟩,
            by simp [searchThread, h1, hr1, h2, hr2, h3, hr3]⟩

/-- Helper: when every file read succeeds, the graphite2 `checkVersion`
cannot raise. -/
theorem graphite2CheckVersion_ok (fs : FileSystem)
    (hfs : ∀ p, ∃ c, fs.readFile p = Except.ok c) :
    ∀ e f r v, ∃ out, graphite2CheckVersion fs e f r v = Except.ok out := by
  intro e f r v
  by_cases hc : f = "Font.h" ∧ pyBasename r = "graphite2"
  · obtain ⟨hc1, hc2⟩ := hc
    subst hc1
    obtain ⟨c, hcread⟩ := hfs (pyJoin r "Font.h")
    exact ⟨(accumulateVersion c "GR2_VERSION_MAJOR" "GR2_VERSION_MINOR"
        "GR2_VERSION_BUGFIX" v, some (pyJoin r "Font.h")),
      by simp [graphite2CheckVersion, hc2, hcread]⟩
  · exact ⟨(v, none), by simp [graphite2CheckVersion, hc]⟩

/-- C6 amended: directory-walk errors are absorbed (an unreadable or
missing directory is simply a tree yielding no files, so that candidate
contributes nothing and the search continues), and when every *file read*
also succeeds the graphite2 resolution raises no exception — only the final
outcome crosses the boundary.  However — per the counterexample — an
`IOError` from opening a matched version file in `checkVersion` is caught
nowhere and escapes to the caller. -/
theorem searchThread_ok_when_reads_ok (fs : FileSystem) (tryLink : Env → Bool)
    (pc : PkgConfig) (td : Bool) (se : Option Env) (ver : String)
    (user sys : List Candidate) (name : String)
    (hfs : ∀ p, ∃ c, fs.readFile p = Except.ok c) :
    ∃ r, searchThread (graphite2Hooks fs tryLink) fs pc td se ver user sys name =
      Except.ok r :=
  searchThread_ok (graphite2Hooks fs tryLink) fs pc td se ver user sys name
    (graphite2CheckVersion_ok fs hfs)

/-- Filesystem whose reads always succeed (with contents that match no
version regex), over the `/e`-shaped tree. -/
def fsReadsOk : FileSystem :=
  { walk := fun r =>
      if r = "/e" then [("/e/lib", ["libgraphite2.so"]), ("/e/graphite2", ["Font.h"])]
      else []
    readFile := fun _p => Except.ok "no version macros here" }

/-- Witness for `searchThread_ok_when_reads_ok` on `fsReadsOk`. -/
theorem searchThread_ok_when_reads_ok_witness :
    (∀ p, ∃ c, fsReadsOk.readFile p = Except.ok c) ∧
    ∃ r, searchThread (graphite2Hooks fsReadsOk tlTrue) fsReadsOk pcOff false none
        "" [Candidate.single "/e"] [] "graphite2" = Except.ok r :=
  ⟨fun _p => ⟨"no version macros here", rfl⟩,
    searchThread_ok_when_reads_ok fsReadsOk tlTrue pcOff false none ""
      [Candidate.single "/e"] [] "graphite2"
      (fun _p => ⟨"no version macros here", rfl⟩)⟩
